import Mathlib

/-!
Verification development for the AstroGuard impact-physics and
deflection-physics engine (`backend/physics.py`).

The Python source is shallowly embedded over `ℝ`: float arithmetic is
modelled by exact real arithmetic, Python `round(x, k)` by `roundTo k`,
Python `int(x)` applied to a nonnegative float by `Int.floor`, and the
nullable arguments `absolute_magnitude_h` / `custom_density_kg_m3` by
`Option ℝ` together with Python truthiness (both `none` and `some 0`
are falsy, which is what `if custom_density_kg_m3:` tests).
Presentation-only f-string payloads (formatted numbers inside the
returned strings) are not modelled; category-carrying strings are kept
verbatim.
-/

open Real

namespace AstroGuard

/-- Python `round(x, k)` (round to `k` decimal digits), modelled with
`Int.round`.  Python breaks exact ties to even; no exact tie occurs at any
input appearing in this development, so the tie-breaking direction is
immaterial here. -/
noncomputable def roundTo (k : ℕ) (x : ℝ) : ℝ :=
  (round (x * 10 ^ k) : ℝ) / 10 ^ k

/-- Truthiness of an optional float argument, as tested by
`if custom_density_kg_m3:` / `elif absolute_magnitude_h:` in the source:
`None` and `0.0` are falsy. -/
def optionalGiven (o : Option ℝ) : Prop := o.getD 0 ≠ 0

/-- Taxonomic class labels produced by the source.  The source uses the
strings `"C-type"`, `"S-type"`, `f"Custom (... kg/m³)"` and
`"S-type (assumed)"`; the embedded density value of the custom label is
carried separately as the first component of the density triple. -/
inductive AsteroidClass where
  | Ctype
  | Stype
  | custom
  | assumed
deriving DecidableEq

/-- The H-magnitude branch of `calculate_asteroid_density`
(`physics.py` lines 197-208), before the porosity correction:
returns `(density_kg_m3, asteroid_type, confidence)`. -/
noncomputable def densityClassOf (absolute_magnitude_h : ℝ) : ℝ × AsteroidClass × ℝ :=
  if absolute_magnitude_h > 22 then (1410, AsteroidClass.Ctype, 0.8)
  else if absolute_magnitude_h > 18 then (2700, AsteroidClass.Stype, 0.7)
  else (2700, AsteroidClass.Stype, 0.6)

/-- `calculate_asteroid_density` (`physics.py` lines 183-215): H-magnitude
branch followed by the rubble-pile porosity correction (density `* 0.8`
when `diameter_m < 100`). -/
noncomputable def calculate_asteroid_density (absolute_magnitude_h diameter_m : ℝ) :
    ℝ × AsteroidClass × ℝ :=
  let t := densityClassOf absolute_magnitude_h
  (if diameter_m < 100 then t.1 * 0.8 else t.1, t.2.1, t.2.2)

/-- Density dispatch of `calculate_impact` (`physics.py` lines 399-410):
a truthy custom density wins with confidence 1.0; else a truthy
H-magnitude goes through `calculate_asteroid_density`; else the S-type
fallback `(2700, assumed, 0.5)` is used directly, with no porosity step. -/
noncomputable def densityUsed (custom_density_kg_m3 absolute_magnitude_h : Option ℝ)
    (size_m : ℝ) : ℝ × AsteroidClass × ℝ :=
  if custom_density_kg_m3.getD 0 ≠ 0 then
    (custom_density_kg_m3.getD 0, AsteroidClass.custom, 1.0)
  else if absolute_magnitude_h.getD 0 ≠ 0 then
    calculate_asteroid_density (absolute_magnitude_h.getD 0) size_m
  else
    (2700, AsteroidClass.assumed, 0.5)

/-- Atmospheric entry deceleration of `calculate_impact`
(`physics.py` lines 416-431): three size bins retaining 70% / 85% / 95%
of the entry velocity. -/
noncomputable def surface_velocity_m_s (size_m speed_km_s : ℝ) : ℝ :=
  let entry_velocity_m_s := speed_km_s * 1000
  if size_m < 50 then entry_velocity_m_s * 0.7
  else if size_m < 200 then entry_velocity_m_s * 0.85
  else entry_velocity_m_s * 0.95

/-- Energy chain of `calculate_impact` (`physics.py` lines 395-435):
spherical mass from the selected density, kinetic energy at the surface
velocity, converted to megatons TNT.  The entry angle and the impact
coordinates do not enter the energy computation. -/
noncomputable def impact_energy_megatons (size_m speed_km_s : ℝ)
    (absolute_magnitude_h custom_density_kg_m3 : Option ℝ) : ℝ :=
  let density_kg_m3 := (densityUsed custom_density_kg_m3 absolute_magnitude_h size_m).1
  let radius_m := size_m / 2
  let volume_m3 := (4 / 3) * Real.pi * radius_m ^ (3 : ℕ)
  let mass_kg := volume_m3 * density_kg_m3
  let velocity_m_s := surface_velocity_m_s size_m speed_km_s
  let energy_joules := 0.5 * mass_kg * velocity_m_s ^ (2 : ℕ)
  energy_joules / 4.184e15

/-- Validation record assembled by `validate_against_chelyabinsk` /
`validate_against_tunguska`.  The boolean `within_uncertainty` comparison
is modelled as a `Prop`. -/
structure ValidationRecord where
  event : String
  expected : ℝ
  calculated : ℝ
  error_percentage : ℝ
  within_uncertainty : Prop

/-- `validate_against_chelyabinsk` (`physics.py` lines 875-908): fixture
18 m, 19.16 km/s, angle 18, lat 55.15, lon 61.41, H = 26.0; compares the
calculated energy (kilotons) against 500 kt with tolerance 250 kt.
`result["energy_megatons"]` is `round(energy_megatons, 3)`; the record
field `calculated_energy_kt` is additionally rounded to 1 digit while the
flag uses the unrounded kilotons value, as in the source. -/
noncomputable def validate_against_chelyabinsk : ValidationRecord :=
  let calculated_energy_kt :=
    roundTo 3 (impact_energy_megatons 18 19.16 (some 26.0) none) * 1000
  { event := "Chelyabinsk 2013"
    expected := 500
    calculated := roundTo 1 calculated_energy_kt
    error_percentage := |calculated_energy_kt - 500| / 500 * 100
    within_uncertainty := |calculated_energy_kt - 500| < 250 }

/-- `validate_against_tunguska` (`physics.py` lines 911-942): fixture
60 m, 15 km/s, angle 45, lat 60.9, lon 101.9, H = 22.0; compares the
calculated energy (megatons) against 10 Mt with tolerance 5 Mt. -/
noncomputable def validate_against_tunguska : ValidationRecord :=
  let calculated_energy_mt :=
    roundTo 3 (impact_energy_megatons 60 15 (some 22.0) none)
  { event := "Tunguska 1908"
    expected := 10
    calculated := roundTo 1 calculated_energy_mt
    error_percentage := |calculated_energy_mt - 10| / 10 * 100
    within_uncertainty := |calculated_energy_mt - 10| < 5 }

/-- TNT tons with ground coupling, from `collins_overpressure_zones`
(`physics.py` lines 300-304): `energy_megatons * 1.3 * 1_000_000`. -/
noncomputable def tntTons (energy_megatons : ℝ) : ℝ :=
  energy_megatons * 1.3 * 1000000

/-- Total destruction radius (`physics.py` line 310). -/
noncomputable def total_destruction_km (energy_megatons crater_diameter_km : ℝ) : ℝ :=
  0.32 * tntTons energy_megatons ^ ((1 : ℝ) / 3) * (1 + crater_diameter_km / 10)

/-- Severe structural damage radius (`physics.py` line 314). -/
noncomputable def severe_damage_km (energy_megatons crater_diameter_km : ℝ) : ℝ :=
  0.61 * tntTons energy_megatons ^ ((1 : ℝ) / 3) * (1 + crater_diameter_km / 20)

/-- Moderate damage radius (`physics.py` line 318). -/
noncomputable def moderate_damage_km (energy_megatons crater_diameter_km : ℝ) : ℝ :=
  1.15 * tntTons energy_megatons ^ ((1 : ℝ) / 3) * (1 + crater_diameter_km / 30)

/-- Thermal radiation radius (`physics.py` lines 322-323); metallic
projectiles (density above 4000) get a 1.2 multiplier. -/
noncomputable def thermal_burns_km (energy_megatons projectile_density : ℝ) : ℝ :=
  0.18 * tntTons energy_megatons ^ ((0.41 : ℝ)) *
    (if projectile_density > 4000 then 1.2 else 1.0)

/-- Seismic damage radius (`physics.py` lines 327-330): nonzero only for
impacts above 1 megaton. -/
noncomputable def seismic_damage_km (energy_megatons : ℝ) : ℝ :=
  if energy_megatons > 1.0 then 2.5 * tntTons energy_megatons ^ ((1 : ℝ) / 4) else 0

/-- One damage-zone dictionary (`physics.py` lines 333-370). -/
structure DamageZone where
  radius_km : ℝ
  ztype : String
  color : String
  description : String

/-- The six-entry zone array of `collins_overpressure_zones` in its
construction order (`physics.py` lines 333-370), radii rounded to two
digits as in the source. -/
noncomputable def zoneTable (energy_megatons crater_diameter_km projectile_density : ℝ) :
    List DamageZone :=
  [ { radius_km := roundTo 2 (seismic_damage_km energy_megatons),
      ztype := "seismic_damage", color := "lightblue",
      description := "Earthquake damage" },
    { radius_km := roundTo 2 (thermal_burns_km energy_megatons projectile_density),
      ztype := "thermal_burns", color := "pink",
      description := "3rd degree burns" },
    { radius_km := roundTo 2 (moderate_damage_km energy_megatons crater_diameter_km),
      ztype := "moderate_damage", color := "yellow",
      description := "Infrastructure damage" },
    { radius_km := roundTo 2 (severe_damage_km energy_megatons crater_diameter_km),
      ztype := "severe_damage", color := "orange",
      description := "Major structural damage" },
    { radius_km := roundTo 2 (total_destruction_km energy_megatons crater_diameter_km),
      ztype := "total_destruction", color := "red",
      description := "100% casualties" },
    { radius_km := roundTo 2 (crater_diameter_km / 2),
      ztype := "crater", color := "black",
      description := "Complete vaporization" } ]

/-- `collins_overpressure_zones` (`physics.py` lines 280-375): the zone
array with the zero-radius filter
`[zone for zone in damage_zones if zone["radius_km"] > 0]` applied. -/
noncomputable def collins_overpressure_zones
    (energy_megatons crater_diameter_km projectile_density : ℝ) : List DamageZone :=
  (zoneTable energy_megatons crater_diameter_km projectile_density).filter
    (fun z => decide (0 < z.radius_km))

/-- Overpressure-to-rate table of `calculate_casualties_scientific`
(`physics.py` lines 505-526), returning `(fatality_rate, injury_rate)`. -/
noncomputable def casualty_rates (overpressure_psi : ℝ) : ℝ × ℝ :=
  if overpressure_psi ≥ 55 then (0.99, 0.01)
  else if overpressure_psi ≥ 35 then
    let fatality_rate := 0.01 + (overpressure_psi - 35) * 0.049
    (fatality_rate, 0.8 * (1 - fatality_rate))
  else if overpressure_psi ≥ 20 then (0.8, 0.15)
  else if overpressure_psi ≥ 10 then (0.5, 0.4)
  else if overpressure_psi ≥ 5 then (0.05, 0.7)
  else if overpressure_psi ≥ 1 then (0.001, 0.1)
  else (0, 0)

/-- Result of `calculate_casualties_scientific` (counts only; the returned
dictionary also repeats the two rates). -/
structure CasualtyResult where
  fatalities : ℤ
  injuries : ℤ
  survivors : ℤ

/-- `calculate_casualties_scientific` (`physics.py` lines 493-538).
`int(population * rate)` truncates toward zero; the population is a
nonnegative integer and both rates are nonnegative, so truncation equals
`Int.floor`. -/
noncomputable def calculate_casualties_scientific (overpressure_psi : ℝ)
    (population : ℕ) : CasualtyResult :=
  let rates := casualty_rates overpressure_psi
  let fatalities := ⌊(population : ℝ) * rates.1⌋
  let injuries := ⌊(population : ℝ) * rates.2⌋
  { fatalities := fatalities
    injuries := injuries
    survivors := (population : ℤ) - fatalities - injuries }

/-- Category of the comparison string returned by `generate_comparison`;
each constructor corresponds to one of the five f-string shapes of
`physics.py` lines 565-588. -/
inductive ComparisonCategory where
  | kilotonsVsHiroshima
  | hiroshimaMultiple
  | tunguskaScale
  | majorCatastrophe
  | civilizationThreatening
  | extinctionLevel
deriving DecidableEq

/-- `generate_comparison` (`physics.py` lines 553-588), with
`hiroshima = 0.015` inlined, abstracting each returned f-string to its
category. -/
noncomputable def generate_comparison (megatons : ℝ) : ComparisonCategory :=
  if megatons < 0.015 then ComparisonCategory.kilotonsVsHiroshima
  else if megatons < 15 then ComparisonCategory.hiroshimaMultiple
  else if megatons < 1000 then
    (if 10 ≤ megatons ∧ megatons ≤ 20 then ComparisonCategory.tunguskaScale
     else ComparisonCategory.majorCatastrophe)
  else if megatons < 100000 then ComparisonCategory.civilizationThreatening
  else ComparisonCategory.extinctionLevel

/-- Result dictionary shared by the three deflection sub-models
(`physics.py`); the `description` f-string is presentation-only and not
modelled. -/
structure DeflectionRecord where
  method : String
  velocity_change_km_s : ℝ
  deflection_distance_km : ℝ
  effectiveness : ℕ
  status : String
  time_required_days : ℝ
  success_probability : ℕ

/-- `_kinetic_impactor_deflection` (`physics.py` lines 634-691).  The
asteroid velocity argument is converted but never used by the source;
it is kept for signature fidelity. -/
noncomputable def kinetic_impactor_deflection
    (asteroid_mass_kg asteroid_velocity_km_s time_to_impact_days
     spacecraft_mass_kg spacecraft_velocity_km_s : ℝ) : DeflectionRecord :=
  let spacecraft_velocity_m_s := spacecraft_velocity_km_s * 1000
  let velocity_change_m_s :=
    spacecraft_mass_kg * spacecraft_velocity_m_s /
      (asteroid_mass_kg + spacecraft_mass_kg)
  let velocity_change_km_s := velocity_change_m_s / 1000
  let earth_radius_km : ℝ := 6371
  let deflection_distance_km := velocity_change_km_s * time_to_impact_days * 24
  let eff_status : ℕ × String :=
    if deflection_distance_km > earth_radius_km * 2 then
      (100, "Complete deflection - Earth safe")
    else if deflection_distance_km > earth_radius_km then
      (80, "Major deflection - reduced impact")
    else if deflection_distance_km > earth_radius_km * 0.5 then
      (50, "Partial deflection - impact reduced")
    else
      (20, "Minimal deflection - impact still likely")
  { method := "Kinetic Impactor"
    velocity_change_km_s := roundTo 6 velocity_change_km_s
    deflection_distance_km := roundTo 2 deflection_distance_km
    effectiveness := eff_status.1
    status := eff_status.2
    time_required_days := 30
    success_probability := min 95 (max 20 (eff_status.1 + 10)) }

/-- `_gravity_tractor_deflection` (`physics.py` lines 694-746): fixed
10000 kg tractor at 100 m standoff; the asteroid size argument is unused
by the source and kept for signature fidelity. -/
noncomputable def gravity_tractor_deflection
    (asteroid_mass_kg asteroid_size_m time_to_impact_days : ℝ) : DeflectionRecord :=
  let tractor_mass_kg : ℝ := 10000
  let tractor_distance_m : ℝ := 100
  let force_N := 6.674e-11 * asteroid_mass_kg * tractor_mass_kg /
    tractor_distance_m ^ (2 : ℕ)
  let acceleration_m_s2 := force_N / asteroid_mass_kg
  let time_to_impact_s := time_to_impact_days * 24 * 3600
  let velocity_change_m_s := acceleration_m_s2 * time_to_impact_s
  let velocity_change_km_s := velocity_change_m_s / 1000
  let earth_radius_km : ℝ := 6371
  let deflection_distance_km := velocity_change_km_s * time_to_impact_days * 24
  let eff_status : ℕ × String :=
    if deflection_distance_km > earth_radius_km * 1.5 then
      (90, "Excellent deflection - Earth safe")
    else if deflection_distance_km > earth_radius_km then
      (70, "Good deflection - impact avoided")
    else if deflection_distance_km > earth_radius_km * 0.3 then
      (40, "Moderate deflection - impact reduced")
    else
      (15, "Minimal deflection - impact still likely")
  { method := "Gravity Tractor"
    velocity_change_km_s := roundTo 6 velocity_change_km_s
    deflection_distance_km := roundTo 2 deflection_distance_km
    effectiveness := eff_status.1
    status := eff_status.2
    time_required_days := max 365 (time_to_impact_days - 100)
    success_probability := min 85 (max 30 (eff_status.1 + 5)) }

/-- `_nuclear_deflection` (`physics.py` lines 819-872): fixed 1-megaton
device, 10% yield-to-kinetic conversion. -/
noncomputable def nuclear_deflection
    (asteroid_mass_kg asteroid_velocity_km_s time_to_impact_days
     spacecraft_mass_kg : ℝ) : DeflectionRecord :=
  let nuclear_yield_joules : ℝ := 1.0 * 4.184e15
  let kinetic_energy_joules := nuclear_yield_joules * 0.1
  let velocity_change_m_s := Real.sqrt (2 * kinetic_energy_joules / asteroid_mass_kg)
  let velocity_change_km_s := velocity_change_m_s / 1000
  let earth_radius_km : ℝ := 6371
  let deflection_distance_km := velocity_change_km_s * time_to_impact_days * 24
  let eff_status : ℕ × String :=
    if deflection_distance_km > earth_radius_km * 3 then
      (95, "Maximum deflection - Earth safe")
    else if deflection_distance_km > earth_radius_km * 1.5 then
      (85, "Strong deflection - impact avoided")
    else if deflection_distance_km > earth_radius_km * 0.5 then
      (60, "Significant deflection - impact reduced")
    else
      (25, "Limited deflection - impact still likely")
  { method := "Nuclear Deflection"
    velocity_change_km_s := roundTo 6 velocity_change_km_s
    deflection_distance_km := roundTo 2 deflection_distance_km
    effectiveness := eff_status.1
    status := eff_status.2
    time_required_days := 60
    success_probability := min 90 (max 40 eff_status.1) }

/-- Outcome of `calculate_deflection`: either one of the three method
dictionaries or the `{"error": "Invalid deflection method"}` dictionary. -/
inductive DeflectionOutcome where
  | ok (record : DeflectionRecord)
  | invalid (msg : String)

/-- `calculate_deflection` (`physics.py` lines 591-631): dispatch on the
method name, with an explicit error value in the final else branch. -/
noncomputable def calculate_deflection
    (asteroid_size_m asteroid_mass_kg asteroid_velocity_km_s
     time_to_impact_days : ℝ) (deflection_method : String)
    (spacecraft_mass_kg spacecraft_velocity_km_s : ℝ) : DeflectionOutcome :=
  if deflection_method = "kinetic_impactor" then
    DeflectionOutcome.ok (kinetic_impactor_deflection asteroid_mass_kg
      asteroid_velocity_km_s time_to_impact_days spacecraft_mass_kg
      spacecraft_velocity_km_s)
  else if deflection_method = "gravity_tractor" then
    DeflectionOutcome.ok (gravity_tractor_deflection asteroid_mass_kg
      asteroid_size_m time_to_impact_days)
  else if deflection_method = "nuclear" then
    DeflectionOutcome.ok (nuclear_deflection asteroid_mass_kg
      asteroid_velocity_km_s time_to_impact_days spacecraft_mass_kg)
  else
    DeflectionOutcome.invalid "Invalid deflection method"

/-! ## Rounding helper lemmas -/

/-- The rounded value exceeds the exact value by at most half an ulp. -/
lemma roundTo_le (k : ℕ) (x : ℝ) : roundTo k x ≤ x + 1 / (2 * 10 ^ k) := by
  have h10 : (0 : ℝ) < 10 ^ k := by positivity
  have h := abs_le.mp (abs_sub_round (x * 10 ^ k))
  unfold roundTo
  rw [div_le_iff₀ h10]
  have hexp : (x + 1 / (2 * 10 ^ k)) * 10 ^ k = x * 10 ^ k + 1 / 2 := by
    field_simp
    ring
  rw [hexp]
  linarith [h.1]

/-- Rounding to a fixed number of digits is monotone. -/
lemma roundTo_mono (k : ℕ) {x y : ℝ} (h : x ≤ y) : roundTo k x ≤ roundTo k y := by
  have h10 : (0 : ℝ) < 10 ^ k := by positivity
  unfold roundTo
  have hr : round (x * 10 ^ k) ≤ round (y * 10 ^ k) := by
    rw [round_eq, round_eq]
    exact Int.floor_le_floor (by nlinarith)
  exact (div_le_div_iff_of_pos_right h10).mpr (by exact_mod_cast hr)

/-- Evaluation rule for `roundTo`: if `x * 10^k + 1/2` lies in `[n, n+1)`
then `roundTo k x = n / 10^k`. -/
lemma roundTo_eq (k : ℕ) (x : ℝ) (n : ℤ) (h1 : (n : ℝ) ≤ x * 10 ^ k + 1 / 2)
    (h2 : x * 10 ^ k + 1 / 2 < (n : ℝ) + 1) : roundTo k x = (n : ℝ) / 10 ^ k := by
  unfold roundTo
  rw [round_eq]
  have hfl : ⌊x * 10 ^ k + 1 / 2⌋ = n := Int.floor_eq_iff.mpr ⟨h1, h2⟩
  rw [hfl]

/-! ## C6: casualty estimator invariants -/

/-- Both casualty rates are nonnegative and they sum to at most 1, for
every overpressure value. -/
lemma casualty_rates_bounds (overpressure_psi : ℝ) :
    0 ≤ (casualty_rates overpressure_psi).1 ∧
      0 ≤ (casualty_rates overpressure_psi).2 ∧
      (casualty_rates overpressure_psi).1 + (casualty_rates overpressure_psi).2 ≤ 1 := by
  simp only [casualty_rates]
  split_ifs with h1 h2 h3 h4 h5 h6
  · norm_num
  · push_neg at h1
    refine ⟨by nlinarith, by nlinarith, by nlinarith⟩
  · norm_num
  · norm_num
  · norm_num
  · norm_num
  · norm_num

/-- C6: for every overpressure value and every nonnegative affected
population, the casualty estimator returns
`fatalities = ⌊population * fatality_rate⌋` and
`injuries = ⌊population * injury_rate⌋`, with
`fatalities + injuries ≤ population`, and the survivor count
`population - fatalities - injuries` is never negative. -/
theorem C6_casualty_invariant (overpressure_psi : ℝ) (population : ℕ) :
    (calculate_casualties_scientific overpressure_psi population).fatalities =
        ⌊(population : ℝ) * (casualty_rates overpressure_psi).1⌋ ∧
      (calculate_casualties_scientific overpressure_psi population).injuries =
        ⌊(population : ℝ) * (casualty_rates overpressure_psi).2⌋ ∧
      (calculate_casualties_scientific overpressure_psi population).fatalities +
          (calculate_casualties_scientific overpressure_psi population).injuries ≤
        (population : ℤ) ∧
      0 ≤ (calculate_casualties_scientific overpressure_psi population).survivors := by
  obtain ⟨hf, hi, hsum⟩ := casualty_rates_bounds overpressure_psi
  have hp : (0 : ℝ) ≤ (population : ℝ) := Nat.cast_nonneg _
  have key : ⌊(population : ℝ) * (casualty_rates overpressure_psi).1⌋ +
      ⌊(population : ℝ) * (casualty_rates overpressure_psi).2⌋ ≤ (population : ℤ) := by
    have hcast : ((⌊(population : ℝ) * (casualty_rates overpressure_psi).1⌋ +
        ⌊(population : ℝ) * (casualty_rates overpressure_psi).2⌋ : ℤ) : ℝ) ≤
        (population : ℝ) := by
      push_cast
      have a1 := Int.floor_le ((population : ℝ) * (casualty_rates overpressure_psi).1)
      have a2 := Int.floor_le ((population : ℝ) * (casualty_rates overpressure_psi).2)
      nlinarith
    exact_mod_cast hcast
  refine ⟨rfl, rfl, ?_, ?_⟩
  · exact key
  · simp only [calculate_casualties_scientific]
    omega

/-! ## C7: unknown deflection method -/

/-- C7: every method string outside the supported set yields the explicit
invalid-method error value, never one of the three method records. -/
theorem C7_unknown_method (deflection_method : String)
    (h1 : deflection_method ≠ "kinetic_impactor")
    (h2 : deflection_method ≠ "gravity_tractor")
    (h3 : deflection_method ≠ "nuclear")
    (asteroid_size_m asteroid_mass_kg asteroid_velocity_km_s time_to_impact_days
      spacecraft_mass_kg spacecraft_velocity_km_s : ℝ) :
    calculate_deflection asteroid_size_m asteroid_mass_kg asteroid_velocity_km_s
        time_to_impact_days deflection_method spacecraft_mass_kg
        spacecraft_velocity_km_s = DeflectionOutcome.invalid "Invalid deflection method" ∧
      ∀ record, calculate_deflection asteroid_size_m asteroid_mass_kg
        asteroid_velocity_km_s time_to_impact_days deflection_method
        spacecraft_mass_kg spacecraft_velocity_km_s ≠ DeflectionOutcome.ok record := by
  have he : calculate_deflection asteroid_size_m asteroid_mass_kg
      asteroid_velocity_km_s time_to_impact_days deflection_method
      spacecraft_mass_kg spacecraft_velocity_km_s =
      DeflectionOutcome.invalid "Invalid deflection method" := by
    unfold calculate_deflection
    rw [if_neg h1, if_neg h2, if_neg h3]
  refine ⟨he, fun record hrec => ?_⟩
  rw [he] at hrec
  exact DeflectionOutcome.noConfusion hrec

/-- Witness for C7 at the concrete unsupported method string. -/
theorem C7_witness :
    calculate_deflection 100 1e10 20 365 "laser" 1000 10 =
      DeflectionOutcome.invalid "Invalid deflection method" :=
  (C7_unknown_method (r"laser") (by decide) (by decide) (by decide)
    100 1e10 20 365 1000 10).1

/-! ## C9: magnitude-comparison thresholds -/

/-- C9: the comparison category follows the stated threshold chain: below
0.015 Mt the kilotons-vs-Hiroshima string; below 15 Mt the
Hiroshima-multiple string; below 1000 Mt the Tunguska-scale string
whenever the energy is between 10 and 20 Mt and the major-catastrophe
string otherwise; below 100000 Mt the civilization-threatening string;
otherwise the extinction-level string. -/
theorem C9_comparison (megatons : ℝ) :
    (megatons < 0.015 →
        generate_comparison megatons = ComparisonCategory.kilotonsVsHiroshima) ∧
      (0.015 ≤ megatons → megatons < 15 →
        generate_comparison megatons = ComparisonCategory.hiroshimaMultiple) ∧
      (15 ≤ megatons → megatons < 1000 → 10 ≤ megatons → megatons ≤ 20 →
        generate_comparison megatons = ComparisonCategory.tunguskaScale) ∧
      (15 ≤ megatons → megatons < 1000 → ¬(10 ≤ megatons ∧ megatons ≤ 20) →
        generate_comparison megatons = ComparisonCategory.majorCatastrophe) ∧
      (1000 ≤ megatons → megatons < 100000 →
        generate_comparison megatons = ComparisonCategory.civilizationThreatening) ∧
      (100000 ≤ megatons →
        generate_comparison megatons = ComparisonCategory.extinctionLevel) := by
  unfold generate_comparison
  refine ⟨?_, ?_, ?_, ?_, ?_, ?_⟩
  · intro h
    rw [if_pos h]
  · intro h1 h2
    rw [if_neg (by linarith), if_pos h2]
  · intro h15 h1000 h10 h20
    rw [if_neg (by linarith), if_neg (by linarith), if_pos h1000, if_pos ⟨h10, h20⟩]
  · intro h15 h1000 hnot
    rw [if_neg (by linarith), if_neg (by linarith), if_pos h1000, if_neg hnot]
  · intro h1 h2
    rw [if_neg (by linarith), if_neg (by linarith), if_neg (by linarith), if_pos h2]
  · intro h
    rw [if_neg (by linarith), if_neg (by linarith), if_neg (by linarith),
      if_neg (by linarith)]

/-- Witness for C9 with one concrete energy per band. -/
theorem C9_witness :
    generate_comparison 0.01 = ComparisonCategory.kilotonsVsHiroshima ∧
      generate_comparison 1 = ComparisonCategory.hiroshimaMultiple ∧
      generate_comparison 17 = ComparisonCategory.tunguskaScale ∧
      generate_comparison 500 = ComparisonCategory.majorCatastrophe ∧
      generate_comparison 5000 = ComparisonCategory.civilizationThreatening ∧
      generate_comparison 200000 = ComparisonCategory.extinctionLevel :=
  ⟨(C9_comparison 0.01).1 (by norm_num),
    (C9_comparison 1).2.1 (by norm_num) (by norm_num),
    (C9_comparison 17).2.2.1 (by norm_num) (by norm_num) (by norm_num) (by norm_num),
    (C9_comparison 500).2.2.2.1 (by norm_num) (by norm_num)
      (by rintro ⟨-, h⟩; norm_num at h),
    (C9_comparison 5000).2.2.2.2.1 (by norm_num) (by norm_num),
    (C9_comparison 200000).2.2.2.2.2 (by norm_num)⟩

/-! ## C4 / C5: density selection -/

/-- Counterexample to C4: a supplied override of `0.0` is falsy in the
source dispatch (`if custom_density_kg_m3:`), so it is not used; the
fallback triple with confidence 0.5 is returned instead of confidence
1.0 with the custom class. -/
theorem C4_counterexample :
    densityUsed (some 0) none 200 = (2700, AsteroidClass.assumed, 0.5) ∧
      (densityUsed (some 0) none 200).2.2 ≠ 1.0 := by
  have h : densityUsed (some 0) none 200 = (2700, AsteroidClass.assumed, 0.5) := by
    simp [densityUsed]
  refine ⟨h, ?_⟩
  rw [h]
  norm_num

/-- C4 (amended): a supplied nonzero override is used with confidence 1.0
and the custom class; otherwise a supplied nonzero H goes through the
taxonomic table, whose pre-porosity triple is 1410/C-type/0.8 for H above
22, 2700/S-type/0.7 for 18 < H at most 22, and 2700/S-type/0.6 for H at
most 18. -/
theorem C4_amended (overrideDensity h size_m : ℝ) (anyH : Option ℝ)
    (hc : overrideDensity ≠ 0) (hh : h ≠ 0) :
    densityUsed (some overrideDensity) anyH size_m =
        (overrideDensity, AsteroidClass.custom, 1.0) ∧
      densityUsed none (some h) size_m = calculate_asteroid_density h size_m ∧
      (h > 22 → densityClassOf h = (1410, AsteroidClass.Ctype, 0.8)) ∧
      (18 < h → h ≤ 22 → densityClassOf h = (2700, AsteroidClass.Stype, 0.7)) ∧
      (h ≤ 18 → densityClassOf h = (2700, AsteroidClass.Stype, 0.6)) := by
  refine ⟨?_, ?_, ?_, ?_, ?_⟩
  · simp [densityUsed, hc]
  · simp [densityUsed, hh]
  · intro hgt
    unfold densityClassOf
    rw [if_pos hgt]
  · intro hgt hle
    unfold densityClassOf
    rw [if_neg (by simp only [gt_iff_lt, not_lt]; linarith), if_pos hgt]
  · intro hle
    unfold densityClassOf
    rw [if_neg (by simp only [gt_iff_lt, not_lt]; linarith),
      if_neg (by simp only [gt_iff_lt, not_lt]; linarith)]

/-- Witness for C4 at a nonzero override and a nonzero H. -/
theorem C4_witness :
    densityUsed (some 3000) none 50 = (3000, AsteroidClass.custom, 1.0) ∧
      densityUsed none (some 20) 50 = calculate_asteroid_density 20 50 ∧
      densityClassOf 20 = (2700, AsteroidClass.Stype, 0.7) := by
  obtain ⟨a, b, -, d, -⟩ := C4_amended 3000 20 50 none (by norm_num) (by norm_num)
  exact ⟨a, b, d (by norm_num) (by norm_num)⟩

/-- Counterexample to C5: with no H-magnitude and no override, a 50 m
asteroid uses density 2700, not 2160 — the porosity post-step is not
applied on the fallback path of `calculate_impact`. -/
theorem C5_counterexample :
    (densityUsed none none 50).1 = 2700 ∧ (densityUsed none none 50).1 ≠ 2160 := by
  have h : (densityUsed none none 50).1 = 2700 := by simp [densityUsed]
  refine ⟨h, ?_⟩
  rw [h]
  norm_num

/-- C5 (amended): when both optional inputs are absent the pipeline uses
exactly (2700, assumed, 0.5) for every diameter — no porosity correction
is applied on this fallback path. -/
theorem C5_amended (size_m : ℝ) :
    densityUsed none none size_m = (2700, AsteroidClass.assumed, 0.5) := by
  simp [densityUsed]

/-! ## C8 / C10: deflection sub-models -/

/-- C8: the kinetic impactor returns the inelastic momentum-transfer
velocity change `m_sc * v_sc / (m_ast + m_sc)` (km/s, rounded to 6
digits), the linear miss-distance proxy `dv * days * 24` (rounded to 2
digits), the 100/80/50/20 effectiveness bands against 2, 1 and 0.5 Earth
radii of 6371 km, the clamped success probability, and a 30-day lead
time. -/
theorem C8_kinetic_impactor (asteroid_mass_kg asteroid_velocity_km_s
    time_to_impact_days spacecraft_mass_kg spacecraft_velocity_km_s : ℝ)
    (hM : 0 < asteroid_mass_kg) (hm : 0 < spacecraft_mass_kg)
    (hv : 0 < spacecraft_velocity_km_s) (ht : 0 < time_to_impact_days) :
    (kinetic_impactor_deflection asteroid_mass_kg asteroid_velocity_km_s
          time_to_impact_days spacecraft_mass_kg
          spacecraft_velocity_km_s).velocity_change_km_s =
        roundTo 6 (spacecraft_mass_kg * spacecraft_velocity_km_s /
          (asteroid_mass_kg + spacecraft_mass_kg)) ∧
      (kinetic_impactor_deflection asteroid_mass_kg asteroid_velocity_km_s
          time_to_impact_days spacecraft_mass_kg
          spacecraft_velocity_km_s).deflection_distance_km =
        roundTo 2 (spacecraft_mass_kg * spacecraft_velocity_km_s /
          (asteroid_mass_kg + spacecraft_mass_kg) * time_to_impact_days * 24) ∧
      (kinetic_impactor_deflection asteroid_mass_kg asteroid_velocity_km_s
          time_to_impact_days spacecraft_mass_kg
          spacecraft_velocity_km_s).effectiveness =
        (if spacecraft_mass_kg * spacecraft_velocity_km_s /
              (asteroid_mass_kg + spacecraft_mass_kg) * time_to_impact_days * 24 >
            6371 * 2 then 100
          else if spacecraft_mass_kg * spacecraft_velocity_km_s /
              (asteroid_mass_kg + spacecraft_mass_kg) * time_to_impact_days * 24 >
            6371 then 80
          else if spacecraft_mass_kg * spacecraft_velocity_km_s /
              (asteroid_mass_kg + spacecraft_mass_kg) * time_to_impact_days * 24 >
            6371 * 0.5 then 50
          else 20) ∧
      (kinetic_impactor_deflection asteroid_mass_kg asteroid_velocity_km_s
          time_to_impact_days spacecraft_mass_kg
          spacecraft_velocity_km_s).success_probability =
        min 95 (max 20 ((kinetic_impactor_deflection asteroid_mass_kg
          asteroid_velocity_km_s time_to_impact_days spacecraft_mass_kg
          spacecraft_velocity_km_s).effectiveness + 10)) ∧
      (kinetic_impactor_deflection asteroid_mass_kg asteroid_velocity_km_s
          time_to_impact_days spacecraft_mass_kg
          spacecraft_velocity_km_s).time_required_days = 30 := by
  have key : spacecraft_mass_kg * (spacecraft_velocity_km_s * 1000) /
      (asteroid_mass_kg + spacecraft_mass_kg) / 1000 =
      spacecraft_mass_kg * spacecraft_velocity_km_s /
        (asteroid_mass_kg + spacecraft_mass_kg) := by
    ring
  refine ⟨?_, ?_, ?_, ?_, ?_⟩ <;>
    simp only [kinetic_impactor_deflection, key, apply_ite Prod.fst]

/-- Witness for C8 at the concrete scenario of the spec (asteroid 1e10 kg
at 20 km/s, 365 days out, 1000 kg spacecraft at 10 km/s). -/
theorem C8_witness :
    (kinetic_impactor_deflection 1e10 20 365 1000 10).velocity_change_km_s =
        roundTo 6 (1000 * 10 / (1e10 + 1000)) ∧
      (kinetic_impactor_deflection 1e10 20 365 1000 10).deflection_distance_km =
        roundTo 2 (1000 * 10 / (1e10 + 1000) * 365 * 24) ∧
      (kinetic_impactor_deflection 1e10 20 365 1000 10).effectiveness =
        (if (1000 : ℝ) * 10 / (1e10 + 1000) * 365 * 24 > 6371 * 2 then 100
          else if (1000 : ℝ) * 10 / (1e10 + 1000) * 365 * 24 > 6371 then 80
          else if (1000 : ℝ) * 10 / (1e10 + 1000) * 365 * 24 > 6371 * 0.5 then 50
          else 20) ∧
      (kinetic_impactor_deflection 1e10 20 365 1000 10).success_probability =
        min 95 (max 20
          ((kinetic_impactor_deflection 1e10 20 365 1000 10).effectiveness + 10)) ∧
      (kinetic_impactor_deflection 1e10 20 365 1000 10).time_required_days = 30 :=
  C8_kinetic_impactor 1e10 20 365 1000 10 (by norm_num) (by norm_num)
    (by norm_num) (by norm_num)

/-- C10: the gravity-tractor velocity change is independent of the
asteroid mass and size — it is exactly
`G * 10000 / 100^2 * time_to_impact_seconds` (converted to km/s and
rounded to 6 digits), and two calls differing only in asteroid mass or
size return identical records. -/
theorem C10_gravity_tractor (mass1 mass2 size1 size2 time_to_impact_days : ℝ)
    (h1 : 0 < mass1) (h2 : 0 < mass2) :
    (gravity_tractor_deflection mass1 size1 time_to_impact_days).velocity_change_km_s =
        roundTo 6 (6.674e-11 * 10000 / 100 ^ (2 : ℕ) *
          (time_to_impact_days * 24 * 3600) / 1000) ∧
      gravity_tractor_deflection mass1 size1 time_to_impact_days =
        gravity_tractor_deflection mass2 size2 time_to_impact_days := by
  have key : ∀ M : ℝ, M ≠ 0 →
      6.674e-11 * M * 10000 / 100 ^ (2 : ℕ) / M =
        6.674e-11 * 10000 / 100 ^ (2 : ℕ) := by
    intro M hM
    field_simp
    ring
  constructor
  · simp only [gravity_tractor_deflection, key mass1 h1.ne']
  · simp only [gravity_tractor_deflection, key mass1 h1.ne', key mass2 h2.ne']

/-- Witness for C10 at two distinct masses and sizes. -/
theorem C10_witness :
    (gravity_tractor_deflection 1e12 100 365).velocity_change_km_s =
        roundTo 6 (6.674e-11 * 10000 / 100 ^ (2 : ℕ) * (365 * 24 * 3600) / 1000) ∧
      gravity_tractor_deflection 1e12 100 365 = gravity_tractor_deflection 5e12 500 365 :=
  C10_gravity_tractor 1e12 5e12 100 500 365 (by norm_num) (by norm_num)

/-! ## C2 / C3: damage-zone model -/

/-- Cube-root evaluation rule for the `^ (1/3)` scaling exponent. -/
lemma rpow_third_of_cube {x : ℝ} (hx : 0 ≤ x) :
    (x ^ (3 : ℕ)) ^ ((1 : ℝ) / 3) = x := by
  rw [one_div, show ((3 : ℝ))⁻¹ = (((3 : ℕ) : ℝ))⁻¹ by norm_num]
  exact Real.pow_rpow_inv_natCast hx (by norm_num)

/-- Counterexample to C2: at energy `1/1300000000` Mt (TNT tons `1/1000`)
and crater diameter 1 km, the crater radius 0.5 km exceeds the total
destruction radius 0.0352 km (0.04 after rounding). -/
theorem C2_counterexample :
    (0 : ℝ) < 1 / 1300000000 ∧ (0 : ℝ) ≤ 1 ∧
      ¬((1 : ℝ) / 2 ≤ total_destruction_km (1 / 1300000000) 1) ∧
      ¬(roundTo 2 ((1 : ℝ) / 2) ≤
          roundTo 2 (total_destruction_km (1 / 1300000000) 1)) := by
  have ht : tntTons (1 / 1300000000) = 1 / 1000 := by
    unfold tntTons
    norm_num
  have hr : tntTons (1 / 1300000000) ^ ((1 : ℝ) / 3) = 1 / 10 := by
    rw [ht, show (1 / 1000 : ℝ) = (1 / 10 : ℝ) ^ (3 : ℕ) by norm_num,
      rpow_third_of_cube (by norm_num)]
  have htot : total_destruction_km (1 / 1300000000) 1 = 0.0352 := by
    unfold total_destruction_km
    rw [hr]
    norm_num
  refine ⟨by norm_num, by norm_num, ?_, ?_⟩
  · rw [htot]
    norm_num
  · rw [htot, roundTo_eq 2 0.0352 4 (by norm_num) (by norm_num),
      roundTo_eq 2 (1 / 2) 50 (by norm_num) (by norm_num)]
    norm_num

/-- C2 (amended): for every positive energy and nonnegative crater
diameter, severe ≤ moderate always holds; total ≤ severe holds whenever
the crater diameter is at most 580/3 km; and crater radius ≤ total holds
whenever the crater radius is at most the crater-independent factor
`0.32 * tnt_tons^(1/3)` of the total-destruction radius.  Each ordering
also holds for the rounded radii the model returns. -/
theorem C2_amended (energy_megatons crater_diameter_km : ℝ)
    (hE : 0 < energy_megatons) (hc : 0 ≤ crater_diameter_km) :
    (severe_damage_km energy_megatons crater_diameter_km ≤
        moderate_damage_km energy_megatons crater_diameter_km ∧
      roundTo 2 (severe_damage_km energy_megatons crater_diameter_km) ≤
        roundTo 2 (moderate_damage_km energy_megatons crater_diameter_km)) ∧
      (crater_diameter_km ≤ 580 / 3 →
        total_destruction_km energy_megatons crater_diameter_km ≤
            severe_damage_km energy_megatons crater_diameter_km ∧
          roundTo 2 (total_destruction_km energy_megatons crater_diameter_km) ≤
            roundTo 2 (severe_damage_km energy_megatons crater_diameter_km)) ∧
      (crater_diameter_km / 2 ≤
          0.32 * tntTons energy_megatons ^ ((1 : ℝ) / 3) →
        crater_diameter_km / 2 ≤
            total_destruction_km energy_megatons crater_diameter_km ∧
          roundTo 2 (crater_diameter_km / 2) ≤
            roundTo 2 (total_destruction_km energy_megatons crater_diameter_km)) := by
  have hA : 0 ≤ tntTons energy_megatons ^ ((1 : ℝ) / 3) :=
    Real.rpow_nonneg (by unfold tntTons; nlinarith) _
  have hsm : severe_damage_km energy_megatons crater_diameter_km ≤
      moderate_damage_km energy_megatons crater_diameter_km := by
    unfold severe_damage_km moderate_damage_km
    nlinarith [mul_nonneg hA hc]
  refine ⟨⟨hsm, roundTo_mono 2 hsm⟩, fun hcb => ?_, fun hcc => ?_⟩
  · have h1 : total_destruction_km energy_megatons crater_diameter_km ≤
        severe_damage_km energy_megatons crater_diameter_km := by
      unfold total_destruction_km severe_damage_km
      nlinarith [mul_nonneg hA
        (show (0 : ℝ) ≤ 580 / 3 - crater_diameter_km by linarith)]
    exact ⟨h1, roundTo_mono 2 h1⟩
  · have h1 : crater_diameter_km / 2 ≤
        total_destruction_km energy_megatons crater_diameter_km := by
      unfold total_destruction_km
      nlinarith [mul_nonneg hA hc]
    exact ⟨h1, roundTo_mono 2 h1⟩

/-- Witness for C2 at energy 1 Mt and crater diameter 2 km, with both
side conditions discharged concretely. -/
theorem C2_witness :
    severe_damage_km 1 2 ≤ moderate_damage_km 1 2 ∧
      total_destruction_km 1 2 ≤ severe_damage_km 1 2 ∧
      (2 : ℝ) / 2 ≤ total_destruction_km 1 2 := by
  obtain ⟨⟨h1, -⟩, h2, h3⟩ := C2_amended 1 2 (by norm_num) (by norm_num)
  have h10 : (10 : ℝ) ≤ tntTons 1 ^ ((1 : ℝ) / 3) := by
    have hcube : ((10 : ℝ) ^ (3 : ℕ)) ^ ((1 : ℝ) / 3) = 10 :=
      rpow_third_of_cube (by norm_num)
    calc (10 : ℝ) = ((10 : ℝ) ^ (3 : ℕ)) ^ ((1 : ℝ) / 3) := hcube.symm
      _ ≤ tntTons 1 ^ ((1 : ℝ) / 3) :=
        Real.rpow_le_rpow (by norm_num) (by unfold tntTons; norm_num) (by norm_num)
  exact ⟨h1, (h2 (by norm_num)).1, (h3 (by linarith)).1⟩

/-- TNT tons at the C3 counterexample energy. -/
lemma c3_tnt : tntTons (1 / 1300000) = 1 := by
  unfold tntTons
  norm_num

/-- Rounded seismic radius at the C3 counterexample input. -/
lemma c3_seismic : roundTo 2 (seismic_damage_km (1 / 1300000)) = 0 := by
  unfold seismic_damage_km
  rw [if_neg (by norm_num)]
  rw [roundTo_eq 2 0 0 (by norm_num) (by norm_num)]
  norm_num

/-- Rounded thermal radius at the C3 counterexample input. -/
lemma c3_thermal : roundTo 2 (thermal_burns_km (1 / 1300000) 3000) = 0.18 := by
  unfold thermal_burns_km
  rw [c3_tnt, Real.one_rpow, if_neg (by norm_num)]
  rw [show (0.18 : ℝ) * 1 * 1.0 = 0.18 by norm_num,
    roundTo_eq 2 0.18 18 (by norm_num) (by norm_num)]
  norm_num

/-- Rounded moderate radius at the C3 counterexample input. -/
lemma c3_moderate : roundTo 2 (moderate_damage_km (1 / 1300000) 0) = 1.15 := by
  unfold moderate_damage_km
  rw [c3_tnt, Real.one_rpow]
  rw [show (1.15 : ℝ) * 1 * (1 + 0 / 30) = 1.15 by norm_num,
    roundTo_eq 2 1.15 115 (by norm_num) (by norm_num)]
  norm_num

/-- Rounded severe radius at the C3 counterexample input. -/
lemma c3_severe : roundTo 2 (severe_damage_km (1 / 1300000) 0) = 0.61 := by
  unfold severe_damage_km
  rw [c3_tnt, Real.one_rpow]
  rw [show (0.61 : ℝ) * 1 * (1 + 0 / 20) = 0.61 by norm_num,
    roundTo_eq 2 0.61 61 (by norm_num) (by norm_num)]
  norm_num

/-- Rounded total-destruction radius at the C3 counterexample input. -/
lemma c3_total : roundTo 2 (total_destruction_km (1 / 1300000) 0) = 0.32 := by
  unfold total_destruction_km
  rw [c3_tnt, Real.one_rpow]
  rw [show (0.32 : ℝ) * 1 * (1 + 0 / 10) = 0.32 by norm_num,
    roundTo_eq 2 0.32 32 (by norm_num) (by norm_num)]
  norm_num

/-- Rounded crater radius at the C3 counterexample input. -/
lemma c3_crater : roundTo 2 ((0 : ℝ) / 2) = 0 := by
  rw [show (0 : ℝ) / 2 = 0 by norm_num,
    roundTo_eq 2 0 0 (by norm_num) (by norm_num)]
  norm_num

/-- The zone list at the C3 counterexample input: the zero-radius seismic
and crater zones are filtered out and the remaining zones appear in
construction order, which is not decreasing. -/
lemma c3_zones_eval :
    collins_overpressure_zones (1 / 1300000) 0 3000 =
      [{ radius_km := 0.18, ztype := "thermal_burns", color := "pink",
          description := "3rd degree burns" },
        { radius_km := 1.15, ztype := "moderate_damage", color := "yellow",
          description := "Infrastructure damage" },
        { radius_km := 0.61, ztype := "severe_damage", color := "orange",
          description := "Major structural damage" },
        { radius_km := 0.32, ztype := "total_destruction", color := "red",
          description := "100% casualties" }] := by
  unfold collins_overpressure_zones zoneTable
  rw [c3_seismic, c3_thermal, c3_moderate, c3_severe, c3_total, c3_crater]
  rw [List.filter_cons_of_neg (by simp),
    List.filter_cons_of_pos (by simp; norm_num),
    List.filter_cons_of_pos (by simp; norm_num),
    List.filter_cons_of_pos (by simp; norm_num),
    List.filter_cons_of_pos (by simp; norm_num),
    List.filter_cons_of_neg (by simp)]
  rfl

/-- Counterexample to C3: at energy `1/1300000` Mt, crater 0 km, density
3000, the returned zone list is thermal (0.18), moderate (1.15), severe
(0.61), total destruction (0.32) — not sorted by decreasing radius. -/
theorem C3_counterexample :
    ¬ List.Pairwise (fun a b : DamageZone => b.radius_km ≤ a.radius_km)
        (collins_overpressure_zones (1 / 1300000) 0 3000) := by
  rw [c3_zones_eval]
  intro h
  have hall := (List.pairwise_cons.mp h).1
  have h2 := hall _ (List.mem_cons_self _ _)
  norm_num at h2

/-- C3 (amended): every returned zone has strictly positive radius (so in
particular all zero-radius zones are excluded), and the returned list is
a subsequence of the fixed construction-order table seismic, thermal,
moderate, severe, total destruction, crater — the source relies on this
fixed order rather than sorting by radius. -/
theorem C3_amended (energy_megatons crater_diameter_km projectile_density : ℝ) :
    (∀ z ∈ collins_overpressure_zones energy_megatons crater_diameter_km
        projectile_density, 0 < z.radius_km) ∧
      (collins_overpressure_zones energy_megatons crater_diameter_km
          projectile_density).Sublist
        (zoneTable energy_megatons crater_diameter_km projectile_density) := by
  constructor
  · intro z hz
    simp only [collins_overpressure_zones] at hz
    have hp := List.of_mem_filter hz
    simpa using hp
  · simp only [collins_overpressure_zones]
    exact List.filter_sublist _

/-- Witness for C3 at a concrete zone of a concrete call. -/
theorem C3_witness :
    0 < ({ radius_km := 0.18, ztype := "thermal_burns", color := "pink",
           description := "3rd degree burns" } : DamageZone).radius_km :=
  (C3_amended (1 / 1300000) 0 3000).1 _
    (by rw [c3_zones_eval]; exact List.mem_cons_self _ _)

/-! ## C1: validation fixtures -/

/-- Density used on the Chelyabinsk fixture: H = 26 selects the C-type
density 1410, and the 18 m diameter triggers the porosity factor,
giving 1128. -/
lemma chel_density : (densityUsed none (some 26.0) 18).1 = 1128 := by
  norm_num [densityUsed, calculate_asteroid_density, densityClassOf]

/-- Surface velocity on the Chelyabinsk fixture: 18 m is in the smallest
size bin, so 19.16 km/s retains 70%, i.e. 13412 m/s. -/
lemma chel_velocity : surface_velocity_m_s 18 19.16 = 13412 := by
  norm_num [surface_velocity_m_s]

/-- The Chelyabinsk fixture energy is below 0.0742 Mt (it is about
74 kt). -/
lemma chel_energy_lt : impact_energy_megatons 18 19.16 (some 26.0) none < 0.0742 := by
  unfold impact_energy_megatons
  rw [chel_density, chel_velocity]
  have hpi := Real.pi_lt_d4
  have hpi0 := Real.pi_gt_three
  rw [div_lt_iff₀ (by norm_num)]
  nlinarith [hpi, hpi0]

/-- Density used on the Tunguska fixture: H = 22 falls in the S-type
branch (2700), and the 60 m diameter triggers the porosity factor,
giving 2160. -/
lemma tun_density : (densityUsed none (some 22.0) 60).1 = 2160 := by
  norm_num [densityUsed, calculate_asteroid_density, densityClassOf]

/-- Surface velocity on the Tunguska fixture: 60 m is in the middle size
bin, so 15 km/s retains 85%, i.e. 12750 m/s. -/
lemma tun_velocity : surface_velocity_m_s 60 15 = 12750 := by
  norm_num [surface_velocity_m_s]

/-- The Tunguska fixture energy is below 4.75 Mt (it is about 4.75 Mt,
short of the 5 Mt lower tolerance bound). -/
lemma tun_energy_lt : impact_energy_megatons 60 15 (some 22.0) none < 4.75 := by
  unfold impact_energy_megatons
  rw [tun_density, tun_velocity]
  have hpi := Real.pi_lt_d4
  have hpi0 := Real.pi_gt_three
  rw [div_lt_iff₀ (by norm_num)]
  nlinarith [hpi, hpi0]

/-- The Chelyabinsk kilotons value used by the flag is below 75 kt. -/
lemma chel_calc_lt :
    roundTo 3 (impact_energy_megatons 18 19.16 (some 26.0) none) * 1000 < 75 := by
  have hub := roundTo_le 3 (impact_energy_megatons 18 19.16 (some 26.0) none)
  have hlt := chel_energy_lt
  have hb : roundTo 3 (impact_energy_megatons 18 19.16 (some 26.0) none) <
      0.0747 := by
    have : (1 : ℝ) / (2 * 10 ^ (3 : ℕ)) = 0.0005 := by norm_num
    linarith [hub, hlt]
  linarith

/-- The Tunguska megatons value used by the flag is below 4.7505 Mt. -/
lemma tun_calc_lt :
    roundTo 3 (impact_energy_megatons 60 15 (some 22.0) none) < 4.7505 := by
  have hub := roundTo_le 3 (impact_energy_megatons 60 15 (some 22.0) none)
  have hlt := tun_energy_lt
  have : (1 : ℝ) / (2 * 10 ^ (3 : ℕ)) = 0.0005 := by norm_num
  linarith

/-- The Chelyabinsk within-uncertainty flag is false: the calculated
energy is about 74 kt, more than 250 kt away from 500 kt. -/
lemma chel_flag_false : ¬ validate_against_chelyabinsk.within_uncertainty := by
  simp only [validate_against_chelyabinsk]
  intro h
  have habs := abs_lt.mp h
  have := chel_calc_lt
  linarith [habs.1]

/-- The Tunguska within-uncertainty flag is false: the calculated energy
is about 4.75 Mt, more than 5 Mt away from 10 Mt. -/
lemma tun_flag_false : ¬ validate_against_tunguska.within_uncertainty := by
  simp only [validate_against_tunguska]
  intro h
  have habs := abs_lt.mp h
  have := tun_calc_lt
  linarith [habs.1]

/-- Counterexample to C1: the two within-uncertainty flags do not both
hold (in fact neither does). -/
theorem C1_counterexample :
    ¬(validate_against_chelyabinsk.within_uncertainty ∧
        validate_against_tunguska.within_uncertainty) :=
  fun h => chel_flag_false h.1

/-- C1 (amended): on the fixed Chelyabinsk fixture the calculated energy
is below 250 kt (about 74 kt, outside the ±250 kt band around 500 kt)
and the within-uncertainty flag is false; on the fixed Tunguska fixture
the calculated energy is below 5 Mt (about 4.75 Mt, outside the ±5 Mt
band around 10 Mt) and the flag is false. -/
theorem C1_amended :
    ¬ validate_against_chelyabinsk.within_uncertainty ∧
      validate_against_chelyabinsk.calculated < 250 ∧
      ¬ validate_against_tunguska.within_uncertainty ∧
      validate_against_tunguska.calculated < 5 := by
  refine ⟨chel_flag_false, ?_, tun_flag_false, ?_⟩
  · simp only [validate_against_chelyabinsk]
    have hub := roundTo_le 1
      (roundTo 3 (impact_energy_megatons 18 19.16 (some 26.0) none) * 1000)
    have := chel_calc_lt
    have h20 : (1 : ℝ) / (2 * 10 ^ (1 : ℕ)) = 0.05 := by norm_num
    linarith
  · simp only [validate_against_tunguska]
    have hub := roundTo_le 1
      (roundTo 3 (impact_energy_megatons 60 15 (some 22.0) none))
    have := tun_calc_lt
    have h20 : (1 : ℝ) / (2 * 10 ^ (1 : ℕ)) = 0.05 := by norm_num
    linarith

end AstroGuard
